import Mathlib

/-!
Shallow embedding of `revoco.c` (a command-line tool driving the wheel mode
of a Logitech MX-Revolution mouse over hidraw) and proofs about its
argument decoder and protocol codec.

Machine integers are modelled as `Nat`/`Int` with explicit `% 256` at the
points where the C code stores into `u8` variables.  Device I/O is modelled
as a trace of actions (writes and reads); `fatal` (which terminates the
process) is modelled as an `Except` error that aborts the remaining tokens.
-/

namespace Revoco

/-- Decode-time failures: `fatal` calls reached from the argument decoder.
`malformedArgument` covers both the bad-prefix message of `onearg` and the
trailing-garbage message of `twoargs`/`nargs`; `argumentOutOfRange` carries
the offending substring and the bounds printed by `onearg`;
`unknownOption` is the final `fatal` of `configure`'s dispatch. -/
inductive DecodeErr where
  | malformedArgument : List Char → DecodeErr
  | argumentOutOfRange : List Char → Int → Int → DecodeErr
  | unknownOption : List Char → DecodeErr
deriving DecidableEq, Repr

/-- The whitespace characters skipped by C `strtol` (`isspace` in the C locale). -/
def isSpaceC (c : Char) : Bool :=
  c = ' ' ∨ c = '\t' ∨ c = '\n' ∨ c = '\r' ∨ c = Char.ofNat 11 ∨ c = Char.ofNat 12

/-- Value of a character as a digit (0-9, a-f, A-F); 255 when not a digit. -/
def digitVal (c : Char) : Nat :=
  if '0' ≤ c ∧ c ≤ '9' then c.toNat - ('0').toNat
  else if 'a' ≤ c ∧ c ≤ 'f' then c.toNat - ('a').toNat + 10
  else if 'A' ≤ c ∧ c ≤ 'F' then c.toNat - ('A').toNat + 10
  else 255

/-- Read a maximal run of base-`b` digits, returning the accumulated value
and the number of characters consumed. -/
def readDigits (b : Nat) : List Char → Nat → Nat × Nat
  | [], acc => (acc, 0)
  | c :: r, acc =>
    if digitVal c < b then
      let (v, k) := readDigits b r (acc * b + digitVal c)
      (v, k + 1)
    else (acc, 0)

/-- Whether a list of characters starts with a hexadecimal digit. -/
def hexDigitNext : List Char → Bool
  | d :: _ => digitVal d < 16
  | [] => false

/-- C `strtol(str, &end, 0)`: skip whitespace, optional sign, then a decimal,
`0x`-hexadecimal or leading-`0` octal literal.  Returns the parsed value and
the total number of characters consumed (`end - str`); consumed = 0 models
`end == str` (no conversion performed).  Overflow clamping to `LONG_MAX` is
not modelled: every caller range-checks against bounds within `[0, 255]`,
for which clamping never changes whether the check fails. -/
def strtol0 (s : List Char) : Int × Nat :=
  let nws := (s.takeWhile isSpaceC).length
  let s1 := s.drop nws
  let sgn : Int × Nat × List Char :=
    match s1 with
    | '-' :: r => (-1, 1, r)
    | '+' :: r => (1, 1, r)
    | _ => (1, 0, s1)
  match sgn with
  | (sg, nsg, s2) =>
    match s2 with
    | '0' :: c :: r =>
      if (c = 'x' ∨ c = 'X') ∧ hexDigitNext r = true then
        let (v, k) := readDigits 16 r 0
        (sg * (v : Int), nws + nsg + 2 + k)
      else
        let (v, k) := readDigits 8 (c :: r) 0
        (sg * (v : Int), nws + nsg + 1 + k)
    | ['0'] => (0, nws + nsg + 1)
    | _ =>
      let (v, k) := readDigits 10 s2 0
      if k = 0 then (0, 0) else (sg * (v : Int), nws + nsg + k)

/-- `onearg(str, prefix_char, arg, def, min, max)` from revoco.c.  Stores the
default into the `u8` slot (hence `% 256`), accepts empty text unchanged,
requires the delimiter on non-empty text, parses an integer with `strtol`,
and range-checks only when characters were consumed.  Returns the stored
`u8` value and the remaining text. -/
def onearg (str : List Char) (delim : Char) (dflt : Int) (lo hi : Int) :
    Except DecodeErr (Nat × List Char) :=
  let arg : Nat := (dflt % 256).toNat
  match str with
  | [] => Except.ok (arg, [])
  | c :: rest =>
    if c = delim then
      match strtol0 rest with
      | (n, k) =>
        if k ≠ 0 then
          if n < lo ∨ n > hi then
            Except.error (DecodeErr.argumentOutOfRange (rest.take k) lo hi)
          else Except.ok ((n % 256).toNat, rest.drop k)
        else Except.ok (arg, rest)
    else Except.error (DecodeErr.malformedArgument (c :: rest))

/-- `twoargs(str, arg1, arg2, def, min, max)` from revoco.c: first value after
`=` with the given default, second after `,` defaulting to the first stored
value; leftover text is a fatal malformed-argument error. -/
def twoargs (str : List Char) (dflt lo hi : Int) :
    Except DecodeErr (Nat × Nat) := do
  let (a1, p1) ← onearg str '=' dflt lo hi
  let (a2, p2) ← onearg p1 ',' (a1 : Int) lo hi
  if p2 ≠ [] then Except.error (DecodeErr.malformedArgument str)
  else Except.ok (a1, a2)

/-- Loop body of `nargs`: parse up to `n` values, `=` before the first and
`,` before the rest, counting the iterations that started on non-empty
text; returns the values, the count, and the final remaining text. -/
def nargsAux (str : List Char) (del : Char) (n : Nat) (dflt lo hi : Int) :
    Except DecodeErr (List Nat × Nat × List Char) :=
  match n with
  | 0 => Except.ok ([], 0, str)
  | n + 1 => do
    let inc : Nat := if str ≠ [] then 1 else 0
    let (a, rest) ← onearg str del dflt lo hi
    let (as, i, fin) ← nargsAux rest ',' n dflt lo hi
    Except.ok (a :: as, inc + i, fin)

/-- `nargs(str, buf, n, def, min, max)` from revoco.c. -/
def nargs (str : List Char) (n : Nat) (dflt lo hi : Int) :
    Except DecodeErr (List Nat × Nat) := do
  let (as, i, fin) ← nargsAux str '=' n dflt lo hi
  if fin ≠ [] then Except.error (DecodeErr.malformedArgument str)
  else Except.ok (as, i)

/-- `send_report(fd, id, buf, n)` from revoco.c: the bytes handed to
`write` are the report id followed by the first `n` bytes of `buf`
(`write(fd, send_buf, n+1)`). -/
def send_report (id : Nat) (buf : List Nat) (n : Nat) : List Nat :=
  id :: buf.take n

/-- `mx_cmd(fd, b1, b2, b3)` from revoco.c: the 6-byte command frame
`first_byte, 0x80, 0x56, b1, b2, b3` sent with report id 0x10. -/
def mx_cmd (fb b1 b2 b3 : Nat) : List Nat :=
  send_report 0x10 [fb, 0x80, 0x56, b1, b2, b3] 6

/-- The response-validation predicate of `mx_query` (revoco.c lines
202-210), on the three leading bytes of the frame after the echoed id
byte has been stripped.  A literal transcription of the C condition:
the frame is rejected when both disjunctive rejection clauses hold. -/
def mx_query_ok (r0 r1 r2 : Nat) : Bool :=
  !(((r0 != 0x02 && r0 != 0x01 && r0 != 0x00) || r1 != 0x81 ||
      (r2 != 0xb1 && r2 != 0x08)) &&
    ((r0 != 0x02 && r0 != 0x01 && r0 != 0x00) || r1 != 0x81 ||
      (r2 != 0x0d && r2 != 0x08)))

/-- Modelled from the spec: the acceptance predicate the specification
describes, with a per-query-kind accepted subcode set — `{0xb1, 0x08}`
when the query is a mode query, `{0x0d, 0x08}` when it is a battery
query.  Compared against `mx_query_ok`, the predicate the code uses. -/
def spec_accept (isModeQuery : Bool) (r0 r1 r2 : Nat) : Bool :=
  (r0 == 0x00 || r0 == 0x01 || r0 == 0x02) && r1 == 0x81 &&
    (if isModeQuery then r2 == 0xb1 || r2 == 0x08
     else r2 == 0x0d || r2 == 0x08)

/-- The switch in `open_dev` (revoco.c lines 114-126) selecting the
device-family discriminant `first_byte` from the matched product id:
1 for the MX-Revolution family, 2 for the MX-5500 combo, 0 (unset,
causing the device to be skipped) otherwise. -/
def discriminant_of_product (product : Nat) : Nat :=
  if product = 0xc51a ∨ product = 0xc525 ∨ product = 0xc526 ∨
      product = 0xc52b ∨ product = 0xb007 then 1
  else if product = 0xc71c then 2
  else 0

/-- One observable device-channel action of `configure`: a `write` of the
exact bytes handed to the device node, a `read` with the report id and
length passed to `query_report`, or a `sleep`. -/
inductive Act where
  | write : List Nat → Act
  | readQ : Nat → Nat → Act
  | sleepA : Nat → Act
deriving DecidableEq, Repr

/-- The device actions of `mx_query(fd, b1, res)`: send the query frame
`first_byte, 0x81, b1, 0, 0, 0` with report id 0x10, then read the reply
(`query_report(fd, 0x10, res, 6)`). -/
def mx_query_acts (fb b1 : Nat) : List Act :=
  [Act.write (send_report 0x10 [fb, 0x81, b1, 0, 0, 0] 6), Act.readQ 0x10 6]

/-- The `manual` branch of `configure` (revoco.c lines 297-300): distinct
buttons use opcode 7 with the nibble-packed pair, equal buttons use
opcode 8 with the single button. -/
def manual_cmd (fb perm a1 a2 : Nat) : List Nat :=
  if a1 ≠ a2 then mx_cmd fb (perm + 7) (a1 * 16 + a2) 0
  else mx_cmd fb (perm + 8) a1 0

/-- One iteration of `configure`'s dispatch loop on a single command
token: the `temp-` prefix strip, then the if/else chain of revoco.c
lines 286-389 in source order.  Yields the token's device actions, or
the decode error at which `fatal` would terminate the process. -/
def run_token (fb : Nat) (tok : List Char) : Except DecodeErr (List Act) :=
  let stripped := tok.take 5 = ("temp-").toList
  let perm : Nat := if stripped then 0 else 0x80
  let cmd := if stripped then tok.drop 5 else tok
  if cmd = ("free").toList then
    Except.ok [Act.write (mx_cmd fb (perm + 1) 0 0)]
  else if cmd = ("click").toList then
    Except.ok [Act.write (mx_cmd fb (perm + 2) 0 0)]
  else if cmd.take 6 = ("manual").toList then do
    let (a1, a2) ← twoargs (cmd.drop 6) 0 0 15
    Except.ok [Act.write (manual_cmd fb perm a1 a2)]
  else if cmd.take 4 = ("auto").toList then do
    let (a1, a2) ← twoargs (cmd.drop 4) 0 0 50
    Except.ok [Act.write (mx_cmd fb (perm + 5) a1 a2)]
  else if tok.take 9 = ("soft-free").toList then do
    let (a1, a2) ← twoargs (tok.drop 9) 0 0 255
    Except.ok [Act.write (mx_cmd fb 3 a1 a2)]
  else if tok.take 10 = ("soft-click").toList then do
    let (a1, a2) ← twoargs (tok.drop 10) 0 0 255
    Except.ok [Act.write (mx_cmd fb 4 a1 a2)]
  else if tok.take 9 = ("reconnect").toList then do
    let _ ← twoargs (tok.drop 9) 0 0 255
    Except.ok [Act.write (send_report 0x10 [0xff, 0x80, 0xb2, 1, 0, 0] 6)]
  else if tok.take 4 = ("mode").toList then
    Except.ok (mx_query_acts fb 0x08)
  else if tok.take 7 = ("battery").toList then
    Except.ok (mx_query_acts fb 0x0d)
  else if tok.take 3 = ("raw").toList then do
    let (bytes, i) ← nargs (tok.drop 3) 256 0 0 255
    Except.ok [Act.write (bytes.take (i % 256))]
  else if tok.take 5 = ("query").toList then do
    let (a1, a2) ← twoargs (tok.drop 5) (-1) 0 255
    if (a1 : Int) = -1 then Except.ok [Act.readQ 0x10 6]
    else Except.ok [Act.readQ a1 a2]
  else if tok.take 5 = ("sleep").toList then do
    let (a1, _) ← twoargs (tok.drop 5) 1 0 255
    Except.ok [Act.sleepA a1]
  else Except.error (DecodeErr.unknownOption tok)

/-- `configure(handle, argc, argv)` from revoco.c as a trace semantics:
process tokens left to right, accumulating device actions; a `fatal`
decode error stops processing (the failing token and all later tokens
contribute no actions) and is returned alongside the actions already
performed. -/
def configure (fb : Nat) : List (List Char) → List Act × Option DecodeErr
  | [] => ([], none)
  | t :: ts =>
    match run_token fb t with
    | Except.error e => ([], some e)
    | Except.ok acts =>
      match configure fb ts with
      | (rest, err) => (acts ++ rest, err)

example : twoargs ("=4,5").toList 0 0 15 = Except.ok (4, 5) := by rfl
example : twoargs ("=4").toList 0 0 15 = Except.ok (4, 4) := by rfl
example : twoargs [] 0 0 15 = Except.ok (0, 0) := by rfl
example : twoargs ("=16").toList 0 0 15 =
    Except.error (DecodeErr.argumentOutOfRange ("16").toList 0 15) := by rfl
example : twoargs ("=0x10").toList 0 0 255 = Except.ok (16, 16) := by rfl
example : twoargs [] (-1) 0 255 = Except.ok (255, 255) := by rfl
example : onearg ("4").toList '=' 0 0 15 =
    Except.error (DecodeErr.malformedArgument ("4").toList) := by rfl
example : run_token 1 ("free").toList =
    Except.ok [Act.write [0x10, 1, 0x80, 0x56, 0x81, 0, 0]] := by rfl
example : run_token 1 ("temp-click").toList =
    Except.ok [Act.write [0x10, 1, 0x80, 0x56, 2, 0, 0]] := by rfl
example : run_token 1 ("manual=4,5").toList =
    Except.ok [Act.write [0x10, 1, 0x80, 0x56, 0x87, 69, 0]] := by rfl
example : run_token 1 ("manual=4,4").toList =
    Except.ok [Act.write [0x10, 1, 0x80, 0x56, 0x88, 4, 0]] := by rfl
example : run_token 1 ("reconnect").toList =
    Except.ok [Act.write [0x10, 0xff, 0x80, 0xb2, 1, 0, 0]] := by rfl
example : run_token 1 ("mode").toList =
    Except.ok [Act.write [0x10, 1, 0x81, 0x08, 0, 0, 0], Act.readQ 0x10 6] := by rfl
example : run_token 2 ("battery").toList =
    Except.ok [Act.write [0x10, 2, 0x81, 0x0d, 0, 0, 0], Act.readQ 0x10 6] := by rfl
example : run_token 1 ("query").toList = Except.ok [Act.readQ 255 255] := by rfl
example : run_token 1 ("query=17,7").toList = Except.ok [Act.readQ 17 7] := by rfl
example : run_token 1 ("soft-free=3,7").toList =
    Except.ok [Act.write [0x10, 1, 0x80, 0x56, 3, 3, 7]] := by rfl
example : configure 1 [("free").toList, ("manual=99").toList] =
    ([Act.write [0x10, 1, 0x80, 0x56, 0x81, 0, 0]],
      some (DecodeErr.argumentOutOfRange ("99").toList 0 15)) := by rfl
example : mx_query_ok 0x01 0x81 0x0d = true := by rfl
example : spec_accept true 0x01 0x81 0x0d = false := by rfl

/-- The optional `temp-` token prefix. -/
def tpfx (temp : Bool) : List Char := if temp then ("temp-").toList else []

/-- The persistence byte `perm`: 0x80 unless the token had the `temp-` prefix. -/
def permOf (temp : Bool) : Nat := if temp then 0 else 0x80

lemma run_token_free (fb : Nat) (temp : Bool) :
    run_token fb (tpfx temp ++ ("free").toList) =
      Except.ok [Act.write (mx_cmd fb (permOf temp + 1) 0 0)] := by
  cases temp <;> rfl

lemma run_token_click (fb : Nat) (temp : Bool) :
    run_token fb (tpfx temp ++ ("click").toList) =
      Except.ok [Act.write (mx_cmd fb (permOf temp + 2) 0 0)] := by
  cases temp <;> rfl

lemma run_token_manual (fb : Nat) (temp : Bool) (sfx : List Char) :
    run_token fb (tpfx temp ++ ("manual").toList ++ sfx) =
      Except.bind (twoargs sfx 0 0 15)
        (fun p => Except.ok [Act.write (manual_cmd fb (permOf temp) p.1 p.2)]) := by
  cases temp <;> rfl

lemma run_token_auto (fb : Nat) (temp : Bool) (sfx : List Char) :
    run_token fb (tpfx temp ++ ("auto").toList ++ sfx) =
      Except.bind (twoargs sfx 0 0 50)
        (fun p => Except.ok [Act.write (mx_cmd fb (permOf temp + 5) p.1 p.2)]) := by
  cases temp <;> rfl

lemma run_token_softfree (fb : Nat) (sfx : List Char) :
    run_token fb (("soft-free").toList ++ sfx) =
      Except.bind (twoargs sfx 0 0 255)
        (fun p => Except.ok [Act.write (mx_cmd fb 3 p.1 p.2)]) := by
  rfl

lemma run_token_softclick (fb : Nat) (sfx : List Char) :
    run_token fb (("soft-click").toList ++ sfx) =
      Except.bind (twoargs sfx 0 0 255)
        (fun p => Except.ok [Act.write (mx_cmd fb 4 p.1 p.2)]) := by
  rfl

lemma run_token_reconnect (fb : Nat) (sfx : List Char) :
    run_token fb (("reconnect").toList ++ sfx) =
      Except.bind (twoargs sfx 0 0 255)
        (fun _ =>
          Except.ok [Act.write (send_report 0x10 [0xff, 0x80, 0xb2, 1, 0, 0] 6)]) := by
  rfl

lemma run_token_query (fb : Nat) (sfx : List Char) :
    run_token fb (("query").toList ++ sfx) =
      Except.bind (twoargs sfx (-1) 0 255)
        (fun p =>
          if (p.1 : Int) = -1 then Except.ok [Act.readQ 0x10 6]
          else Except.ok [Act.readQ p.1 p.2]) := by
  rfl

/-- C1 counterexample: a mode-query response whose byte[2] is 0x0d lies
outside the claimed accepted set for a mode query (`{0xb1, 0x08}`), so the
claim says it is rejected; the code's validation (`mx_query_ok`, which does
not depend on the query kind) accepts it. -/
theorem revoco_C1_counterexample :
    mx_query_ok 0x01 0x81 0x0d = true ∧
      spec_accept true 0x01 0x81 0x0d = false :=
  ⟨rfl, rfl⟩

/-- C1 (amended): `mx_query`'s validation does not depend on the query
kind: it accepts a stripped response frame if and only if byte[0] is one
of 0x00/0x01/0x02, byte[1] is 0x81, and byte[2] is one of 0xb1, 0x08,
0x0d — the union of the two subcode sets, for mode and battery queries
alike. -/
theorem revoco_C1_amended (r0 r1 r2 : Nat) :
    mx_query_ok r0 r1 r2 = true ↔
      (r0 = 0x00 ∨ r0 = 0x01 ∨ r0 = 0x02) ∧ r1 = 0x81 ∧
        (r2 = 0xb1 ∨ r2 = 0x08 ∨ r2 = 0x0d) := by
  simp only [mx_query_ok, Bool.not_eq_true', Bool.and_eq_false_iff,
    Bool.or_eq_false_iff, bne_eq_false_iff_eq, Bool.and_eq_true,
    bne_iff_ne, ne_eq]
  constructor
  · rintro (h | h) <;> tauto
  · tauto

/-- C2 counterexample: in the invocation `free manual=99` the second token
fails to decode (99 is out of the 0-15 button range), yet the report for
the earlier `free` token has already been written — the claim that no
device reports at all are issued is false. -/
theorem revoco_C2_counterexample :
    (configure 1 [("free").toList, ("manual=99").toList]).2 =
        some (DecodeErr.argumentOutOfRange ("99").toList 0 15) ∧
      (configure 1 [("free").toList, ("manual=99").toList]).1 =
        [Act.write [0x10, 1, 0x80, 0x56, 0x81, 0, 0]] :=
  ⟨rfl, rfl⟩

/-- C2 (amended): a decode failure aborts the invocation at the failing
token: that token and every later token contribute no device I/O, but the
actions of the earlier, successfully decoded tokens have already been
performed by the time the abort happens. -/
theorem revoco_C2_amended (fb : Nat) (pre : List (List Char)) (t : List Char)
    (ts : List (List Char)) (e : DecodeErr)
    (hpre : ∀ t' ∈ pre, ∃ a, run_token fb t' = Except.ok a)
    (ht : run_token fb t = Except.error e) :
    configure fb (pre ++ t :: ts) = ((configure fb pre).1, some e) := by
  induction pre with
  | nil => simp [configure, ht]
  | cons p ps ih =>
    obtain ⟨a, ha⟩ := hpre p (by simp)
    have h2 : ∀ t' ∈ ps, ∃ b, run_token fb t' = Except.ok b :=
      fun t' ht' => hpre t' (by simp [ht'])
    simp [configure, ha, ih h2]

theorem revoco_C2_amended_witness :
    configure 1 [("free").toList, ("manual=99").toList] =
      ((configure 1 [("free").toList]).1,
        some (DecodeErr.argumentOutOfRange ("99").toList 0 15)) :=
  revoco_C2_amended 1 [("free").toList] (("manual=99").toList) []
    (DecodeErr.argumentOutOfRange (("99").toList) 0 15)
    (by intro t' ht'
        simp only [List.mem_singleton] at ht'
        subst ht'
        exact ⟨[Act.write [0x10, 1, 0x80, 0x56, 0x81, 0, 0]], rfl⟩)
    rfl

/-- C3: for buttons up, down in [0, 15], `manual` with distinct buttons
encodes opcode 7 (plus the persistence byte) with the nibble-packed pair
`up*16 + down` and a zero third byte; with equal buttons it encodes
opcode 8 with payload `up`, and the opcode byte differs from the
opcode-7 byte. -/
theorem revoco_C3 (fb perm up down : Nat) (hperm : perm = 0 ∨ perm = 0x80)
    (hu : up ≤ 15) (hd : down ≤ 15) :
    (up ≠ down → manual_cmd fb perm up down =
      [0x10, fb, 0x80, 0x56, perm + 7, up * 16 + down, 0]) ∧
    (up = down → manual_cmd fb perm up down =
        [0x10, fb, 0x80, 0x56, perm + 8, up, 0] ∧ perm + 8 ≠ perm + 7) := by
  constructor
  · intro h
    simp [manual_cmd, h, mx_cmd, send_report]
  · intro h
    refine ⟨?_, by omega⟩
    simp [manual_cmd, h, mx_cmd, send_report]

theorem revoco_C3_witness :
    manual_cmd 1 0x80 4 5 = [0x10, 1, 0x80, 0x56, 0x87, 69, 0] ∧
      manual_cmd 1 0x80 4 4 = [0x10, 1, 0x80, 0x56, 0x88, 4, 0] :=
  ⟨(revoco_C3 1 0x80 4 5 (Or.inr rfl) (by omega) (by omega)).1 (by omega),
    ((revoco_C3 1 0x80 4 4 (Or.inr rfl) (by omega) (by omega)).2 rfl).1⟩

/-- C8: for distinct buttons u, d in [0, 15], the nibble-packed payload
byte of the opcode-7 frame decodes back to (u, d) via division and
remainder by 16. -/
theorem revoco_C8 (fb perm u d : Nat) (hu : u ≤ 15) (hd : d ≤ 15)
    (hne : u ≠ d) :
    manual_cmd fb perm u d = [0x10, fb, 0x80, 0x56, perm + 7, u * 16 + d, 0] ∧
      (u * 16 + d) / 16 = u ∧ (u * 16 + d) % 16 = d := by
  refine ⟨?_, by omega, by omega⟩
  simp [manual_cmd, hne, mx_cmd, send_report]

theorem revoco_C8_witness :
    manual_cmd 1 0 4 5 = [0x10, 1, 0x80, 0x56, 7, 69, 0] ∧
      69 / 16 = 4 ∧ 69 % 16 = 5 :=
  revoco_C8 1 0 4 5 (by omega) (by omega) (by omega)

/-- Unfolding of `twoargs` with the monadic binds made explicit. -/
lemma twoargs_eq (str : List Char) (dflt lo hi : Int) :
    twoargs str dflt lo hi =
      Except.bind (onearg str '=' dflt lo hi) (fun q =>
        Except.bind (onearg q.2 ',' (q.1 : Int) lo hi) (fun r =>
          if r.2 ≠ [] then Except.error (DecodeErr.malformedArgument str)
          else Except.ok (q.1, r.1))) :=
  rfl

/-- C4: the mode-setting commands `free` (opcode 1), `click` (2),
`manual` (7/8), `auto` (5) OR the persistence byte 0x80 into the opcode
exactly when the token lacks the `temp-` prefix, while `soft-free` and
`soft-click` always encode the raw opcodes 3 and 4, whose persistence
bit is never set. -/
theorem revoco_C4 (fb : Nat) (temp : Bool)
    (sm sa sf sc : List Char) (m1 m2 u1 u2 f1 f2 c1 c2 : Nat)
    (hm : twoargs sm 0 0 15 = Except.ok (m1, m2))
    (ha : twoargs sa 0 0 50 = Except.ok (u1, u2))
    (hf : twoargs sf 0 0 255 = Except.ok (f1, f2))
    (hc : twoargs sc 0 0 255 = Except.ok (c1, c2)) :
    run_token fb (tpfx temp ++ ("free").toList) =
      Except.ok [Act.write [0x10, fb, 0x80, 0x56, permOf temp + 1, 0, 0]] ∧
    run_token fb (tpfx temp ++ ("click").toList) =
      Except.ok [Act.write [0x10, fb, 0x80, 0x56, permOf temp + 2, 0, 0]] ∧
    run_token fb (tpfx temp ++ ("manual").toList ++ sm) =
      Except.ok [Act.write (manual_cmd fb (permOf temp) m1 m2)] ∧
    run_token fb (tpfx temp ++ ("auto").toList ++ sa) =
      Except.ok [Act.write [0x10, fb, 0x80, 0x56, permOf temp + 5, u1, u2]] ∧
    run_token fb (("soft-free").toList ++ sf) =
      Except.ok [Act.write [0x10, fb, 0x80, 0x56, 3, f1, f2]] ∧
    run_token fb (("soft-click").toList ++ sc) =
      Except.ok [Act.write [0x10, fb, 0x80, 0x56, 4, c1, c2]] ∧
    (∀ k, k ∈ [1, 2, 5, 7, 8] →
      ((permOf temp + k) &&& 0x80 = 0x80 ↔ temp = false)) ∧
    (3 : Nat) &&& 0x80 = 0 ∧ (4 : Nat) &&& 0x80 = 0 := by
  refine ⟨?_, ?_, ?_, ?_, ?_, ?_, ?_, rfl, rfl⟩
  · rw [run_token_free]
    exact rfl
  · rw [run_token_click]
    exact rfl
  · rw [run_token_manual, hm]
    exact rfl
  · rw [run_token_auto, ha]
    exact rfl
  · rw [run_token_softfree, hf]
    exact rfl
  · rw [run_token_softclick, hc]
    exact rfl
  · intro k hk
    fin_cases hk <;> cases temp <;> decide

theorem revoco_C4_witness :
    run_token 1 (tpfx false ++ ("free").toList) =
      Except.ok [Act.write [0x10, 1, 0x80, 0x56, permOf false + 1, 0, 0]] :=
  (revoco_C4 1 false (("=4,5").toList) (("=10,20").toList) (("=3,7").toList)
    [] 4 5 10 20 3 7 0 0 rfl rfl rfl rfl).1

/-- C5: the bytes handed to `write` are the report id followed by the
payload, `n+1` bytes in total; every `mx_cmd` frame is a 6-byte payload
whose first byte is the device-family discriminant, and any discriminant
selected by `open_dev` is 1 or 2. -/
theorem revoco_C5 (id : Nat) (buf : List Nat) (fb b1 b2 b3 : Nat)
    (product : Nat) (hp : discriminant_of_product product ≠ 0) :
    send_report id buf buf.length = id :: buf ∧
    (send_report id buf buf.length).length = buf.length + 1 ∧
    mx_cmd fb b1 b2 b3 = send_report 0x10 [fb, 0x80, 0x56, b1, b2, b3] 6 ∧
    ([fb, 0x80, 0x56, b1, b2, b3] : List Nat).length = 6 ∧
    ([fb, 0x80, 0x56, b1, b2, b3] : List Nat).head? = some fb ∧
    (discriminant_of_product product = 1 ∨
      discriminant_of_product product = 2) := by
  refine ⟨?_, ?_, rfl, rfl, rfl, ?_⟩
  · simp [send_report]
  · simp [send_report]
  · unfold discriminant_of_product at hp ⊢
    split_ifs at hp ⊢ <;> simp_all

theorem revoco_C5_witness :
    send_report 0x10 [9, 8] 2 = [0x10, 9, 8] ∧
    (send_report 0x10 [9, 8] 2).length = 3 ∧
    mx_cmd 2 5 0 0 = send_report 0x10 [2, 0x80, 0x56, 5, 0, 0] 6 ∧
    ([2, 0x80, 0x56, 5, 0, 0] : List Nat).length = 6 ∧
    ([2, 0x80, 0x56, 5, 0, 0] : List Nat).head? = some 2 ∧
    (discriminant_of_product 0xc71c = 1 ∨
      discriminant_of_product 0xc71c = 2) :=
  revoco_C5 0x10 [9, 8] 2 5 0 0 0xc71c (by decide)

/-- C6: `twoargs` parses the first value with `=` and the supplied
default, the second with `,` defaulting to the first parsed value, and
rejects leftover text as a malformed argument; concretely `=4,5` gives
(4,5), `=4` gives (4,4) and the empty text gives the defaults (0,0). -/
theorem revoco_C6 (str : List Char) (dflt lo hi : Int) (a1 : Nat)
    (p1 : List Char)
    (h1 : onearg str '=' dflt lo hi = Except.ok (a1, p1)) :
    (∀ a2 p2, onearg p1 ',' (a1 : Int) lo hi = Except.ok (a2, p2) →
      (p2 = [] → twoargs str dflt lo hi = Except.ok (a1, a2)) ∧
      (p2 ≠ [] → twoargs str dflt lo hi =
        Except.error (DecodeErr.malformedArgument str))) ∧
    twoargs ("=4,5").toList 0 0 15 = Except.ok (4, 5) ∧
    twoargs ("=4").toList 0 0 15 = Except.ok (4, 4) ∧
    twoargs [] 0 0 15 = Except.ok (0, 0) := by
  refine ⟨?_, rfl, rfl, rfl⟩
  intro a2 p2 h2
  constructor
  · intro hp2
    subst hp2
    simp [twoargs_eq, h1, h2, Except.bind]
  · intro hp2
    simp [twoargs_eq, h1, h2, hp2, Except.bind]

theorem revoco_C6_witness :
    twoargs ("=4,5").toList 0 0 15 = Except.ok (4, 5) :=
  ((revoco_C6 (("=4,5").toList) 0 0 15 4 ((",5").toList) rfl).1 5 [] rfl).1
    rfl

/-- C7: `onearg` yields the stored default on empty text with no error;
non-empty text not starting with the required delimiter is a malformed
argument; a parsed integer outside [min, max] is an out-of-range error
reporting the consumed substring and the bounds, as is `=16` against
bounds 0-15. -/
theorem revoco_C7 (delim : Char) (dflt lo hi : Int) (c : Char)
    (rest : List Char) (n : Int) (k : Nat) :
    onearg [] delim dflt lo hi = Except.ok ((dflt % 256).toNat, []) ∧
    (c ≠ delim → onearg (c :: rest) delim dflt lo hi =
      Except.error (DecodeErr.malformedArgument (c :: rest))) ∧
    (c = delim → strtol0 rest = (n, k) → k ≠ 0 → (n < lo ∨ n > hi) →
      onearg (c :: rest) delim dflt lo hi =
        Except.error (DecodeErr.argumentOutOfRange (rest.take k) lo hi)) ∧
    onearg ("=16").toList '=' 0 0 15 =
      Except.error (DecodeErr.argumentOutOfRange (("16").toList) 0 15) := by
  refine ⟨rfl, ?_, ?_, rfl⟩
  · intro h
    simp [onearg, h]
  · intro hc hst hk hrange
    subst hc
    simp [onearg, hst, hk, hrange]

theorem revoco_C7_witness :
    onearg (['4'] : List Char) '=' 0 0 15 =
      Except.error (DecodeErr.malformedArgument ['4']) :=
  (revoco_C7 '=' 0 0 15 '4' [] 4 1).2.1 (by decide)

/-- C9: in the `query` debug command the parsed report id lives in a
`u8`, so the `arg1 == -1` guard never fires: the read always uses the
parsed values, and `query` with no argument reads report id 255 with
length 255 (the `u8` image of the -1 default), not the 0x10/6 default
the guard was meant to substitute. -/
theorem revoco_C9 (fb : Nat) (sfx : List Char) (a1 a2 : Nat)
    (h : twoargs sfx (-1) 0 255 = Except.ok (a1, a2)) :
    run_token fb (("query").toList ++ sfx) = Except.ok [Act.readQ a1 a2] ∧
    run_token fb (("query").toList) = Except.ok [Act.readQ 255 255] := by
  constructor
  · rw [run_token_query, h]
    show (if (a1 : Int) = -1 then Except.ok [Act.readQ 0x10 6]
      else Except.ok [Act.readQ a1 a2]) = Except.ok [Act.readQ a1 a2]
    rw [if_neg (by omega)]
  · rfl

theorem revoco_C9_witness :
    run_token 1 (("query").toList ++ ("=17,7").toList) =
      Except.ok [Act.readQ 17 7] :=
  (revoco_C9 1 (("=17,7").toList) 17 7 rfl).1

/-- C10: a `reconnect` token parses an optional `=v1[,v2]` suffix with
bounds 0-255, discards the values, and sends the one fixed frame
`0xff 0x80 0xb2 01 00 00` (report id 0x10) whenever the suffix parses;
a suffix that fails to parse, such as `=300`, aborts with the decode
error even though reconnect uses no parameters. -/
theorem revoco_C10 (fb : Nat) (sfx : List Char) :
    (∀ a1 a2, twoargs sfx 0 0 255 = Except.ok (a1, a2) →
      run_token fb (("reconnect").toList ++ sfx) =
        Except.ok [Act.write [0x10, 0xff, 0x80, 0xb2, 1, 0, 0]]) ∧
    (∀ e, twoargs sfx 0 0 255 = Except.error e →
      run_token fb (("reconnect").toList ++ sfx) = Except.error e) ∧
    run_token fb (("reconnect=300").toList) =
      Except.error (DecodeErr.argumentOutOfRange (("300").toList) 0 255) := by
  refine ⟨?_, ?_, rfl⟩
  · intro a1 a2 h
    rw [run_token_reconnect, h]
    exact rfl
  · intro e h
    rw [run_token_reconnect, h]
    exact rfl

theorem revoco_C10_witness :
    run_token 1 (("reconnect").toList ++ ("=1").toList) =
      Except.ok [Act.write [0x10, 0xff, 0x80, 0xb2, 1, 0, 0]] :=
  (revoco_C10 1 (("=1").toList)).1 1 1 rfl

end Revoco
